import Mathlib

/-!
Shallow embedding of the OperatorPolicy reconciliation pipeline from
`controllers/operatorpolicy_controller.go`, together with theorems settling
the specification claims about it.

Conventions:
- Pure Go functions become Lean functions; external collaborator calls
  (the dynamic watcher, the cluster client, the generic `handleKeys` merge
  helper that lives in another file of the repository) are passed in as
  explicit oracle inputs describing the outcome of the call.
- Condition and related-object constructors (`matchesCond`, `mismatchCond`,
  `opGroupTooManyCond`, ...) are defined in a status-helper file that is not
  part of the provided source; they are modelled from the specification and
  from the literal values asserted by the repository's end-to-end tests.
- Cluster mutations performed by a handler are recorded in an explicit
  `actions` trace so that frame properties ("no create/update happened")
  are statable.
-/

namespace OperatorPolicy

/-- Status of a compliance condition: mirrors `metav1.ConditionStatus`
("True" / "False" / "Unknown"). -/
inductive CondStatus
  | isTrue
  | isFalse
  | isUnknown
  deriving DecidableEq, Repr

/-- The remediation mode of the policy: mirrors `policyv1.RemediationAction`
with its `IsEnforce` / `IsInform` helpers. -/
inductive RemediationAction
  | inform
  | enforce
  deriving DecidableEq, Repr

/-- Mirrors `RemediationAction.IsEnforce`. -/
def RemediationAction.IsEnforce : RemediationAction → Bool
  | .enforce => true
  | .inform => false

/-- Mirrors `RemediationAction.IsInform`. -/
def RemediationAction.IsInform : RemediationAction → Bool
  | .enforce => false
  | .inform => true

/-- A compliance condition as stored on the policy status:
mirrors `metav1.Condition` (the last-transition timestamp is not modelled). -/
structure Condition where
  ctype : String
  status : CondStatus
  reason : String
  message : String
  deriving DecidableEq, Repr

/-- A related object entry on the policy status: mirrors
`policyv1.RelatedObject` restricted to the fields the controller sets. -/
structure RelatedObject where
  kind : String
  name : String
  ns : String
  compliant : String
  reason : String
  deriving DecidableEq, Repr

/-- The status projection of the policy that the pipeline mutates:
conditions plus related objects. -/
structure PolicyStatus where
  conditions : List Condition
  relatedObjects : List RelatedObject
  deriving DecidableEq, Repr

/-- Modelled from the spec: `updateStatus` keeps exactly one live condition
per condition type; setting a condition replaces any previous condition of
the same type.  (The ordered-set layout of the Go helper is not modelled;
only the one-per-type mapping is.) -/
def setCondition (conds : List Condition) (c : Condition) : List Condition :=
  c :: conds.filter (fun c0 => decide ¬ c0.ctype = c.ctype)

/-- Modelled from the spec: the related-object set for a given kind is fully
replaced, not incrementally patched, on every status update; an update that
passes no related objects leaves the existing entries untouched. -/
def replaceRelated (old : List RelatedObject) (objs : List RelatedObject) :
    List RelatedObject :=
  if objs.isEmpty then
    old
  else
    old.filter (fun o => decide ¬ (objs.map RelatedObject.kind).contains o.kind) ++ objs

/-- Modelled from the spec: `updateStatus(policy, cond, relObjs...)` sets the
condition for its dimension, replaces the related objects of the touched
kinds, and reports whether the status projection changed. -/
def updateStatus (st : PolicyStatus) (c : Condition) (objs : List RelatedObject) :
    PolicyStatus × Bool :=
  let st2 : PolicyStatus := ⟨setCondition st.conditions c, replaceRelated st.relatedObjects objs⟩
  (st2, decide ¬ st2 = st)

/-- Looks up the live condition of a given type on a status projection. -/
def condOfType (st : PolicyStatus) (ty : String) : Option Condition :=
  st.conditions.find? (fun c => c.ctype = ty)

/-- Modelled from the spec: `invalidCausingUnknownCond(kind)` is the
Unknown-status condition reported for a dimension whose desired object
failed validation ("validity problems with the policy prevent an accurate
status"). -/
def invalidCausingUnknownCond (kind : String) : Condition :=
  ⟨kind ++ "Compliant", CondStatus.isUnknown, "InvalidPolicySpec",
    "the status of the " ++ kind ++ " could not be determined because the policy is invalid"⟩

/-- Modelled from the spec: `missingWantedCond(kind)` reports NonCompliance
for a wanted object that was not found. -/
def missingWantedCond (kind : String) : Condition :=
  ⟨kind ++ "Compliant", CondStatus.isFalse, kind ++ "Missing",
    "the " ++ kind ++ " required by the policy was not found"⟩

/-- Modelled from the spec: `createdCond(kind)` reports Compliance right
after the enforced creation of the wanted object. -/
def createdCond (kind : String) : Condition :=
  ⟨kind ++ "Compliant", CondStatus.isTrue, kind ++ "Created",
    "the " ++ kind ++ " required by the policy was created"⟩

/-- Modelled from the spec: `matchesCond(kind)` reports Compliance for a
found object that matches the desired state. -/
def matchesCond (kind : String) : Condition :=
  ⟨kind ++ "Compliant", CondStatus.isTrue, kind ++ "Matches",
    "the " ++ kind ++ " matches what is required by the policy"⟩

/-- Modelled from the spec: `mismatchCond(kind)` reports NonCompliance for a
found object that does not match the desired state. -/
def mismatchCond (kind : String) : Condition :=
  ⟨kind ++ "Compliant", CondStatus.isFalse, kind ++ "Mismatch",
    "the " ++ kind ++ " found on the cluster does not match the policy"⟩

/-- Modelled from the spec: `mismatchCondUnfixable(kind)` is the distinct
mismatched-but-unfixable NonCompliant condition reported when an enforcement
update would be rejected by the cluster (for example an immutable field). -/
def mismatchCondUnfixable (kind : String) : Condition :=
  ⟨kind ++ "Compliant", CondStatus.isFalse, kind ++ "Mismatch",
    "the " ++ kind ++ " found on the cluster does not match the policy and can not be enforced"⟩

/-- Modelled from the spec: `updatedCond(kind)` reports Compliance right
after an enforced update brought the object to the desired state. -/
def updatedCond (kind : String) : Condition :=
  ⟨kind ++ "Compliant", CondStatus.isTrue, kind ++ "Updated",
    "the " ++ kind ++ " was updated to match the policy"⟩

/-- Modelled from the spec: `opGroupPreexistingCond` reports Compliance when
a pre-existing OperatorGroup is assumed to be correct because the policy did
not specify one. -/
def opGroupPreexistingCond : Condition :=
  ⟨"OperatorGroupCompliant", CondStatus.isTrue, "PreexistingOperatorGroupFound",
    "the policy does not specify an OperatorGroup but one already exists in the namespace"⟩

/-- Modelled from the spec and anchored by the repository's end-to-end tests:
`opGroupTooManyCond` is the dedicated NonCompliant condition with reason
"TooManyOperatorGroups" reported when more than one OperatorGroup exists in
the namespace. -/
def opGroupTooManyCond : Condition :=
  ⟨"OperatorGroupCompliant", CondStatus.isFalse, "TooManyOperatorGroups",
    "there is more than one OperatorGroup in the namespace"⟩

/-- Modelled from the spec and the end-to-end tests: `noInstallPlansCond` is
the Compliant condition with reason "NoInstallPlansFound". -/
def noInstallPlansCond : Condition :=
  ⟨"InstallPlanCompliant", CondStatus.isTrue, "NoInstallPlansFound",
    "there are no relevant InstallPlans in the namespace"⟩

/-- Modelled from the spec: `installPlanFailed` reports NonCompliance when
the subscription's currently-recorded InstallPlan has failed. -/
def installPlanFailed : Condition :=
  ⟨"InstallPlanCompliant", CondStatus.isFalse, "InstallPlanFailed",
    "the current InstallPlan has failed"⟩

/-- Modelled from the spec: `installPlanInstallingCond` reports
NonCompliance while an InstallPlan is mid-installation. -/
def installPlanInstallingCond : Condition :=
  ⟨"InstallPlanCompliant", CondStatus.isFalse, "InstallPlanInstalling",
    "an InstallPlan is installing"⟩

/-- Modelled from the spec and the end-to-end tests:
`installPlansNoApprovals` is the Compliant condition with reason
"NoInstallPlansRequiringApproval". -/
def installPlansNoApprovals : Condition :=
  ⟨"InstallPlanCompliant", CondStatus.isTrue, "NoInstallPlansRequiringApproval",
    "no InstallPlans requiring approval were found"⟩

/-- Modelled from the spec and the end-to-end tests:
`installPlanUpgradeCond(allUpgradeVersions, approvableNames)` is the
NonCompliant condition with reason "InstallPlanRequiresApproval" listing all
pending target versions and which plans (if any) are approvable. -/
def installPlanUpgradeCond (allUpgradeVersions : List String)
    (approvableNames : List String) : Condition :=
  ⟨"InstallPlanCompliant", CondStatus.isFalse, "InstallPlanRequiresApproval",
    "an InstallPlan to update to " ++ String.intercalate ", " allUpgradeVersions ++
      " is available for approval; approvable: " ++ String.intercalate ", " approvableNames⟩

/-- Modelled from the spec and the end-to-end tests:
`installPlanApprovedCond(version)` is the Compliant condition naming the
version that was just approved. -/
def installPlanApprovedCond (version : String) : Condition :=
  ⟨"InstallPlanCompliant", CondStatus.isTrue, "InstallPlanApproved",
    "the InstallPlan for " ++ version ++ " was approved"⟩

/-- Modelled from the spec: `noCSVCond` is the Unknown-status condition
reported when no relevant ClusterServiceVersion can be determined (the
subscription is absent or its status has no installed CSV yet); per the
spec, a dimension whose input is absent is never silently Compliant. -/
def noCSVCond : Condition :=
  ⟨"ClusterServiceVersionCompliant", CondStatus.isUnknown, "NoRelevantClusterServiceVersion",
    "a relevant installed ClusterServiceVersion could not be found"⟩

/-- Modelled from the spec: the final compliance condition computed from the
whole status by `calculateComplianceCondition`: Compliant exactly when no
live condition is False. -/
def calculateComplianceCondition (st : PolicyStatus) : Condition :=
  if st.conditions.any (fun c => c.status = CondStatus.isFalse) then
    ⟨"Compliant", CondStatus.isFalse, "NonCompliant", "the policy is noncompliant"⟩
  else
    ⟨"Compliant", CondStatus.isTrue, "Compliant", "the policy is compliant"⟩

/-- Modelled from the spec: `missingWantedObj` related-object entry. -/
def missingWantedObj (kind name ns : String) : RelatedObject :=
  ⟨kind, name, ns, "NonCompliant", "Resource not found but should exist"⟩

/-- Modelled from the spec: `createdObj` related-object entry. -/
def createdObj (kind name ns : String) : RelatedObject :=
  ⟨kind, name, ns, "Compliant", "K8s creation success"⟩

/-- Modelled from the spec: `matchedObj` related-object entry. -/
def matchedObj (kind name ns : String) : RelatedObject :=
  ⟨kind, name, ns, "Compliant", "Resource found as expected"⟩

/-- Modelled from the spec: `mismatchedObj` related-object entry. -/
def mismatchedObj (kind name ns : String) : RelatedObject :=
  ⟨kind, name, ns, "NonCompliant", "Resource found but does not match"⟩

/-- Modelled from the spec: `updatedObj` related-object entry. -/
def updatedObj (kind name ns : String) : RelatedObject :=
  ⟨kind, name, ns, "Compliant", "K8s update success"⟩

/-- Modelled from the spec: `nonCompObj` related-object entry with an
explicit reason. -/
def nonCompObj (kind name ns reason : String) : RelatedObject :=
  ⟨kind, name, ns, "NonCompliant", reason⟩

/-- Modelled from the spec: `noInstallPlansObj` related-object entry. -/
def noInstallPlansObj (ns : String) : RelatedObject :=
  ⟨"InstallPlan", "-", ns, "Compliant", "There are no relevant InstallPlans in this namespace"⟩

/-- The desired or observed OperatorGroup, restricted to the fields the
controller reads: embeds `operatorv1.OperatorGroup`. -/
structure OperatorGroup where
  name : String
  generateName : String
  ns : String
  targetNamespaces : List String
  deriving DecidableEq, Repr

/-- Embeds `operatorv1alpha1.SubscriptionSpec` restricted to the fields the
controller reads. -/
structure SubscriptionSpec where
  package : String
  channel : String
  startingCSV : String
  catalogSource : String
  catalogSourceNamespace : String
  installPlanApproval : String
  deriving DecidableEq, Repr

/-- A status condition on a Subscription as reported by OLM: embeds
`operatorv1alpha1.SubscriptionCondition`. -/
structure SubCondition where
  ctype : String
  status : CondStatus
  reason : String
  message : String
  deriving DecidableEq, Repr

/-- Embeds `operatorv1alpha1.SubscriptionStatus` restricted to the fields
the controller reads. -/
structure SubscriptionStatus where
  installedCSV : String
  installPlanRefName : Option String
  conditions : List SubCondition
  deriving DecidableEq, Repr

/-- Embeds OLM's `SubscriptionStatus.GetCondition`, which returns a default
Unknown-status condition when none of the given type is present. -/
def SubscriptionStatus.getCondition (st : SubscriptionStatus) (ty : String) : SubCondition :=
  (st.conditions.find? (fun c => c.ctype = ty)).getD ⟨ty, CondStatus.isUnknown, "", ""⟩

/-- Embeds `operatorv1alpha1.Subscription` restricted to the fields the
controller reads. -/
structure Subscription where
  name : String
  ns : String
  spec : SubscriptionSpec
  status : SubscriptionStatus
  deriving DecidableEq, Repr

/-- An owner reference on an observed object: embeds
`metav1.OwnerReference` restricted to the fields the controller reads. -/
structure OwnerRef where
  name : String
  kind : String
  apiVersion : String
  deriving DecidableEq, Repr

/-- An observed InstallPlan, restricted to the fields the controller reads.
`phase` is `none` when `status.phase` is missing from the unstructured
object (the controller then records the phase as the empty string), and
`csvNames` is `none` when `spec.clusterServiceVersionNames` is missing. -/
structure InstallPlan where
  name : String
  ownerReferences : List OwnerRef
  phase : Option String
  csvNames : Option (List String)
  approved : Bool
  deriving DecidableEq, Repr

/-- Modelled from the spec: `existingInstallPlanObj` surfaces an owned
InstallPlan as a related object annotated with its observed phase. -/
def existingInstallPlanObj (name ns phase : String) : RelatedObject :=
  ⟨"InstallPlan", name, ns, if phase = "RequiresApproval" then "NonCompliant" else "",
    "The InstallPlan is " ++ (if phase = "" then "unknown" else phase)⟩

/-- Modelled from the spec: `opGroupTooManyObjs` lists every found
OperatorGroup as a NonCompliant related object. -/
def opGroupTooManyObjs (groups : List OperatorGroup) : List RelatedObject :=
  groups.map (fun g =>
    ⟨"OperatorGroup", g.name, g.ns, "NonCompliant",
      "There is more than one OperatorGroup in this namespace"⟩)

/-!
## Merge/Diff engine (`mergeObjects`)

An unstructured cluster object is abstracted as a flat list of
field-name/value pairs; this is enough to express the volatile-field
stripping and the byte-for-byte comparison that `mergeObjects` performs.
The generic structural comparison `handleKeys` and the server-side dry-run
update live outside the provided source; their outcomes are oracle inputs.
-/

/-- An unstructured cluster object, abstracted as field/value pairs. -/
def UObj : Type := List (String × String)

instance : DecidableEq UObj := by
  unfold UObj
  infer_instance

instance : Repr UObj := by
  unfold UObj
  infer_instance

/-- Modelled from the spec: the server-managed/volatile fields stripped by
`removeFieldsForComparison` before any comparison (resource version,
managed-field metadata, the status subtree, generated timestamps). -/
def volatileFields : List String :=
  ["resourceVersion", "managedFields", "status", "creationTimestamp"]

/-- Modelled from the spec: `removeFieldsForComparison` strips the volatile
fields from a working copy of the object. -/
def removeFieldsForComparison (o : UObj) : UObj :=
  o.filter (fun kv => decide ¬ volatileFields.contains kv.1)

/-- The outcome of the `handleKeys` comparison helper (defined in another
file of the repository), as consumed by `mergeObjects`: an error message
(empty when no error), whether the comparison found a needed update, and
the merged object that `handleKeys` produced in `existing`. -/
structure HandleKeysOut where
  errMsg : String
  updateNeeded : Bool
  merged : UObj
  deriving Repr

/-- The outcome of the server-side dry-run update, as observed by
`mergeObjects`: success (carrying the object the server would store),
a rejection classified as forbidden (for example an immutable-field
change), or any other error. -/
inductive DryRunOutcome
  | ok (result : UObj)
  | forbidden
  | failed (e : String)
  deriving Repr

/-- The result triple of `mergeObjects`. -/
structure MergeOutcome where
  updateNeeded : Bool
  updateIsForbidden : Bool
  err : Option String
  deriving DecidableEq, Repr

/-- Embeds `mergeObjects` (controller lines 1066-1107): strip the volatile
fields from a copy of `existing`, run the `handleKeys` comparison, and when
it reports a needed update attempt a server-side dry-run; a forbidden
rejection yields `(true, true, no error)`, and a successful dry-run whose
stripped result equals the stripped original overrides `updateNeeded` to
false. -/
def mergeObjects (existing : UObj) (hk : HandleKeysOut) (dryRun : DryRunOutcome) :
    MergeOutcome :=
  let existingObjectCopy := removeFieldsForComparison existing
  if hk.errMsg = "" then
    if hk.updateNeeded then
      match dryRun with
      | DryRunOutcome.forbidden => ⟨true, true, none⟩
      | DryRunOutcome.failed e => ⟨hk.updateNeeded, false, some e⟩
      | DryRunOutcome.ok result =>
          if removeFieldsForComparison result = existingObjectCopy then
            ⟨false, false, none⟩
          else
            ⟨hk.updateNeeded, false, none⟩
    else
      ⟨hk.updateNeeded, false, none⟩
  else
    ⟨hk.updateNeeded, false, some hk.errMsg⟩

/-!
## `messageIncludesSubscription`

The Go function builds, from `regexp.QuoteMeta`-escaped names, the pattern
`(?:subscription (?:N|NS\/N)|package (?:P|NS\/P))(?:$|\s|,|:)` and searches
the message with it.  Because every name is quoted, the pattern is a search
for one of four literal strings followed by the end of the message, a
whitespace character, a comma, or a colon.  The embedding below implements
exactly that search over character lists.
-/

/-- The characters accepted after the subscription or package name:
Go's `\s` character class (space, tab, newline, form feed, carriage
return) together with the comma and colon alternatives of the pattern. -/
def isBoundaryChar (c : Char) : Bool :=
  c = ' ' || c = '\t' || c = '\n' || c = '\x0c' || c = '\r' || c = ',' || c = ':'

/-- `litBoundaryAt pat s` holds when `s` starts with the literal `pat` and
the pattern match can end there: either `s` ends with the pattern or the
next character is a boundary character. -/
def litBoundaryAt : List Char → List Char → Bool
  | [], [] => true
  | [], c :: _ => isBoundaryChar c
  | _ :: _, [] => false
  | p :: ps, c :: cs => p = c && litBoundaryAt ps cs

/-- `litBoundarySearch pat s` holds when the literal `pat` occurs anywhere
in `s` followed by a boundary character or the end of `s`. -/
def litBoundarySearch (pat : List Char) : List Char → Bool
  | [] => litBoundaryAt pat []
  | c :: cs => litBoundaryAt pat (c :: cs) || litBoundarySearch pat cs

/-- The four literal alternatives of the compiled pattern: the subscription
name and the package name, each bare and prefixed by the namespace. -/
def subPatterns (subscription : Subscription) : List String :=
  ["subscription " ++ subscription.name,
    "subscription " ++ subscription.ns ++ "/" ++ subscription.name,
    "package " ++ subscription.spec.package,
    "package " ++ subscription.ns ++ "/" ++ subscription.spec.package]

/-- Embeds `messageIncludesSubscription` (controller lines 713-728): the
message mentions this subscription or its package, where the mention must be
followed by the end of the message, whitespace, a comma, or a colon so that
for example "gatekeeper-operator" does not match "gatekeeper-operator-product". -/
def messageIncludesSubscription (subscription : Subscription) (message : String) : Bool :=
  (subPatterns subscription).any (fun p => litBoundarySearch p.toList message.toList)

/-!
## Per-kind handlers

Each handler is embedded as a function of the policy, the desired object,
and oracle inputs describing the outcomes of the external calls it makes
(watcher reads, cluster writes, the merge engine).  The handler returns the
updated status projection, the `changed` flag, the early compliance
conditions, the error, and a trace of the cluster mutations performed.
-/

/-- A cluster mutation performed by a handler. -/
inductive Action
  | create (kind name : String)
  | update (kind name : String)
  | delete (kind name : String)
  deriving DecidableEq, Repr

/-- The relevant policy fields read by the handlers: embeds
`policyv1beta1.OperatorPolicy` restricted to what the controller uses.
`opGroupSpecified` mirrors `policy.Spec.OperatorGroup != nil`. -/
structure Policy where
  remediationAction : RemediationAction
  complianceType : String
  versions : List String
  opGroupSpecified : Bool
  status : PolicyStatus
  deriving Repr

/-- The outputs common to every handler. -/
structure HandlerOut where
  earlyConds : List Condition
  status : PolicyStatus
  changed : Bool
  actions : List Action
  err : Option String
  deriving Repr

/-- Embeds `handleOpGroup` (controller lines 444-575).  Oracles: the result
of listing OperatorGroups in the namespace, the outcome of `mergeObjects`
on the found group, and the error results of the Create and Update calls. -/
def handleOpGroup (policy : Policy) (desiredOpGroup : Option OperatorGroup)
    (listResult : Except String (List OperatorGroup))
    (mergeRes : MergeOutcome)
    (createErr updateErr : Option String) : HandlerOut :=
  match desiredOpGroup with
  | none =>
    let (st, ch) := updateStatus policy.status (invalidCausingUnknownCond "OperatorGroup") []
    ⟨[], st, ch, [], none⟩
  | some desired =>
    if desired.ns = "" then
      let (st, ch) := updateStatus policy.status (invalidCausingUnknownCond "OperatorGroup") []
      ⟨[], st, ch, [], none⟩
    else
      match listResult with
      | Except.error e =>
        ⟨[], policy.status, false, [], some ("error listing OperatorGroups: " ++ e)⟩
      | Except.ok foundOpGroups =>
        match foundOpGroups with
        | [] =>
          let (st, ch) := updateStatus policy.status (missingWantedCond "OperatorGroup")
            [missingWantedObj "OperatorGroup" desired.name desired.ns]
          if policy.remediationAction.IsInform then
            ⟨[], st, ch, [], none⟩
          else
            let earlyConds := if ch then [calculateComplianceCondition st] else []
            match createErr with
            | some e =>
              ⟨[], st, ch, [Action.create "OperatorGroup" desired.name],
                some ("error creating the OperatorGroup: " ++ e)⟩
            | none =>
              let (st2, _) := updateStatus st (createdCond "OperatorGroup")
                [createdObj "OperatorGroup" desired.name desired.ns]
              ⟨earlyConds, st2, true, [Action.create "OperatorGroup" desired.name], none⟩
        | [opGroup] =>
          let emptyNameMatch := desired.name = "" && opGroup.generateName = desired.generateName
          if ¬ (opGroup.name = desired.name || emptyNameMatch) then
            if ¬ policy.opGroupSpecified then
              let (st, ch) := updateStatus policy.status opGroupPreexistingCond
                [matchedObj "OperatorGroup" opGroup.name opGroup.ns]
              ⟨[], st, ch, [], none⟩
            else
              let (st, ch) := updateStatus policy.status (mismatchCond "OperatorGroup")
                [missingWantedObj "OperatorGroup" desired.name desired.ns,
                  mismatchedObj "OperatorGroup" opGroup.name opGroup.ns]
              ⟨[], st, ch, [], none⟩
          else
            match mergeRes.err with
            | some e =>
              ⟨[], policy.status, false, [],
                some ("error checking if the OperatorGroup needs an update: " ++ e)⟩
            | none =>
              if ¬ mergeRes.updateNeeded then
                let (st, ch) := updateStatus policy.status (matchesCond "OperatorGroup")
                  [matchedObj "OperatorGroup" opGroup.name opGroup.ns]
                ⟨[], st, ch, [], none⟩
              else if ¬ policy.opGroupSpecified then
                let (st, ch) := updateStatus policy.status opGroupPreexistingCond
                  [matchedObj "OperatorGroup" opGroup.name opGroup.ns]
                ⟨[], st, ch, [], none⟩
              else if policy.remediationAction.IsEnforce && mergeRes.updateIsForbidden then
                let (st, ch) := updateStatus policy.status (mismatchCondUnfixable "OperatorGroup")
                  [mismatchedObj "OperatorGroup" opGroup.name opGroup.ns]
                ⟨[], st, ch, [], none⟩
              else
                let (st, ch) := updateStatus policy.status (mismatchCond "OperatorGroup")
                  [mismatchedObj "OperatorGroup" opGroup.name opGroup.ns]
                if policy.remediationAction.IsInform then
                  ⟨[], st, ch, [], none⟩
                else
                  let earlyConds := if ch then [calculateComplianceCondition st] else []
                  match updateErr with
                  | some e =>
                    ⟨[], st, ch, [Action.update "OperatorGroup" opGroup.name],
                      some ("error updating the OperatorGroup: " ++ e)⟩
                  | none =>
                    let (st2, _) := updateStatus st (updatedCond "OperatorGroup")
                      [updatedObj "OperatorGroup" desired.name desired.ns]
                    ⟨earlyConds, st2, true, [Action.update "OperatorGroup" opGroup.name], none⟩
        | _ :: _ :: _ =>
          let (st, ch) := updateStatus policy.status opGroupTooManyCond
            (opGroupTooManyObjs foundOpGroups)
          ⟨[], st, ch, [], none⟩

/-- The condition type used for the Subscription dimension. -/
def subConditionType : String := "SubscriptionCompliant"

/-- Embeds `handleSubscription` (controller lines 577-703).  Oracles: the
result of getting the Subscription from the watcher, the outcome of
`mergeObjects`, the merged Subscription converted back to its Go type (with
a possible conversion error), the outcome of the namespace-wide
resolution-failure correlation check `messageIncludesSubscription` (an
`Except` because the Go call also returns an error), and the error results
of the Create and Update calls.  Returns the subscription passed to later
stages together with the common handler outputs. -/
def handleSubscription (policy : Policy) (desiredSub : Option Subscription)
    (getResult : Except String (Option Subscription))
    (mergeRes : MergeOutcome) (convErr : Option String) (mergedSub : Subscription)
    (inclCheck : Except String Bool)
    (createErr updateErr : Option String) : Option Subscription × HandlerOut :=
  match desiredSub with
  | none =>
    let (st, ch) := updateStatus policy.status (invalidCausingUnknownCond "Subscription") []
    (none, ⟨[], st, ch, [], none⟩)
  | some desired =>
    match getResult with
    | Except.error e =>
      (none, ⟨[], policy.status, false, [], some ("error getting the Subscription: " ++ e)⟩)
    | Except.ok none =>
      let (st, ch) := updateStatus policy.status (missingWantedCond "Subscription")
        [missingWantedObj "Subscription" desired.name desired.ns]
      if policy.remediationAction.IsInform then
        (some desired, ⟨[], st, ch, [], none⟩)
      else
        let earlyConds := if ch then [calculateComplianceCondition st] else []
        match createErr with
        | some e =>
          (none, ⟨[], st, ch, [Action.create "Subscription" desired.name],
            some ("error creating the Subscription: " ++ e)⟩)
        | none =>
          let (st2, _) := updateStatus st (createdCond "Subscription")
            [createdObj "Subscription" desired.name desired.ns]
          (some desired, ⟨earlyConds, st2, true, [Action.create "Subscription" desired.name], none⟩)
    | Except.ok (some foundSub) =>
      match mergeRes.err with
      | some e =>
        (none, ⟨[], policy.status, false, [],
          some ("error checking if the Subscription needs an update: " ++ e)⟩)
      | none =>
        match convErr with
        | some e =>
          (none, ⟨[], policy.status, false, [],
            some ("error converting the retrieved Subscription to the go type: " ++ e)⟩)
        | none =>
          if ¬ mergeRes.updateNeeded then
            let subResFailed := mergedSub.status.getCondition "ResolutionFailed"
            let includesSubscription :=
              match inclCheck with
              | Except.error _ => true
              | Except.ok b => b
            if subResFailed.status = CondStatus.isTrue && includesSubscription then
              let cond : Condition :=
                ⟨subConditionType, CondStatus.isFalse, subResFailed.reason, subResFailed.message⟩
              let (st, ch) := updateStatus policy.status cond
                [nonCompObj "Subscription" foundSub.name foundSub.ns subResFailed.reason]
              (some mergedSub, ⟨[], st, ch, [], none⟩)
            else
              let (st, ch) := updateStatus policy.status (matchesCond "Subscription")
                [matchedObj "Subscription" foundSub.name foundSub.ns]
              (some mergedSub, ⟨[], st, ch, [], none⟩)
          else if policy.remediationAction.IsEnforce && mergeRes.updateIsForbidden then
            let (st, ch) := updateStatus policy.status (mismatchCondUnfixable "Subscription")
              [mismatchedObj "Subscription" foundSub.name foundSub.ns]
            (some mergedSub, ⟨[], st, ch, [], none⟩)
          else
            let (st, ch) := updateStatus policy.status (mismatchCond "Subscription")
              [mismatchedObj "Subscription" foundSub.name foundSub.ns]
            if policy.remediationAction.IsInform then
              (some mergedSub, ⟨[], st, ch, [], none⟩)
            else
              let earlyConds := if ch then [calculateComplianceCondition st] else []
              match updateErr with
              | some e =>
                (some mergedSub, ⟨[], st, ch, [Action.update "Subscription" foundSub.name],
                  some ("error updating the Subscription: " ++ e)⟩)
              | none =>
                let (st2, _) := updateStatus st (updatedCond "Subscription")
                  [updatedObj "Subscription" mergedSub.name mergedSub.ns]
                (some mergedSub,
                  ⟨earlyConds, st2, true, [Action.update "Subscription" foundSub.name], none⟩)

/-- Embeds the owner-reference filter of `handleInstallPlan` (controller
lines 748-759): an InstallPlan is owned by the subscription when some owner
reference names the subscription with kind "Subscription" and api version
"operators.coreos.com/v1alpha1". -/
def ownedBySub (subName : String) (ip : InstallPlan) : Bool :=
  ip.ownerReferences.any (fun owner =>
    owner.name = subName && owner.kind = "Subscription" &&
      owner.apiVersion = "operators.coreos.com/v1alpha1")

/-- The phase recorded for an InstallPlan: a missing `status.phase` is
treated as the empty string (controller lines 776-787). -/
def phaseOf (ip : InstallPlan) : String := ip.phase.getD ""

/-- Embeds the rendering `fmt.Sprintf("%v", csvNames)` of a string slice. -/
def formatCSVNames (names : List String) : String :=
  "[" ++ String.intercalate " " names ++ "]"

/-- One step of the approvable-InstallPlan scan of `handleInstallPlan`
(controller lines 848-881): skip plans whose CSV names could not be read,
skip plans targeting more than one CSV, and accept a plan whose single
target is allowed by `spec.versions` (or any target when the version list
is empty), recording its version as the candidate approved version. -/
def approvableStep (versions : List String) (acc : String × List InstallPlan)
    (ip : InstallPlan) : String × List InstallPlan :=
  match ip.csvNames with
  | none => acc
  | some ipCSVs =>
    if ipCSVs.length ≠ 1 then
      acc
    else
      let matchingCSV := versions.isEmpty || versions.contains (ipCSVs.headD "")
      if matchingCSV then
        (ipCSVs.headD "", acc.2 ++ [ip])
      else
        acc

/-- The approvable-InstallPlan scan of `handleInstallPlan`: folds
`approvableStep` over the plans requiring approval, producing the candidate
approved version (only meaningful when exactly one plan is approvable) and
the list of approvable plans. -/
def approvableScan (versions : List String) (ips : List InstallPlan) :
    String × List InstallPlan :=
  ips.foldl (approvableStep versions) ("", [])

/-- A plan is approvable exactly when its CSV-name list was readable, has
exactly one element, and that element is allowed by the version list (an
empty version list allows any version).  This is the specification-side
predicate that the scan is proved to implement. -/
def isApprovable (versions : List String) (ip : InstallPlan) : Prop :=
  ∃ l, ip.csvNames = some l ∧ l.length = 1 ∧
    (versions = [] ∨ (l.headD "") ∈ versions)

/-- The plans owned by the subscription (controller lines 746-759). -/
def ownedPlansOf (subName : String) (found : List InstallPlan) : List InstallPlan :=
  found.filter (ownedBySub subName)

/-- The owned plans whose phase requires approval (controller line 792). -/
def plansRequiringApproval (owned : List InstallPlan) : List InstallPlan :=
  owned.filter (fun ip => phaseOf ip = "RequiresApproval")

/-- Whether some owned plan is mid-installation (controller line 794). -/
def anyInstallingB (owned : List InstallPlan) : Bool :=
  owned.any (fun ip => phaseOf ip = "Installing")

/-- Whether the subscription's currently-recorded plan has failed
(controller lines 795-800). -/
def currentPlanFailedB (sub : Subscription) (owned : List InstallPlan) : Bool :=
  owned.any (fun ip =>
    phaseOf ip = "Failed" && sub.status.installPlanRefName = some ip.name)

/-- The formatted target-version list of every plan pending approval
(controller lines 818-835). -/
def allUpgradeVersionsOf (reqApproval : List InstallPlan) : List String :=
  reqApproval.map (fun ip => formatCSVNames (ip.csvNames.getD ["unknown"]))

/-- Embeds `handleInstallPlan` (controller lines 730-899).  Oracles: the
result of listing InstallPlans in the namespace and the error result of the
approval Update call (the Update that patches `spec.approved` to true on
the single approvable plan; the patch-and-update pair is recorded as one
`Action.update`). -/
def handleInstallPlan (policy : Policy) (sub : Option Subscription)
    (listResult : Except String (List InstallPlan))
    (updateErr : Option String) : HandlerOut :=
  match sub with
  | none =>
    let (st, ch) := updateStatus policy.status (invalidCausingUnknownCond "InstallPlan") []
    ⟨[], st, ch, [], none⟩
  | some sub =>
    match listResult with
    | Except.error e =>
      ⟨[], policy.status, false, [], some ("error listing InstallPlans: " ++ e)⟩
    | Except.ok foundInstallPlans =>
      let ownedInstallPlans := ownedPlansOf sub.name foundInstallPlans
      if ownedInstallPlans.isEmpty then
        let (st, ch) := updateStatus policy.status noInstallPlansCond [noInstallPlansObj sub.ns]
        ⟨[], st, ch, [], none⟩
      else
        let relatedInstallPlans := ownedInstallPlans.map
          (fun ip => existingInstallPlanObj ip.name sub.ns (phaseOf ip))
        let ipsRequiringApproval := plansRequiringApproval ownedInstallPlans
        let anyInstalling := anyInstallingB ownedInstallPlans
        let currentPlanFailed := currentPlanFailedB sub ownedInstallPlans
        if currentPlanFailed then
          let (st, ch) := updateStatus policy.status installPlanFailed relatedInstallPlans
          ⟨[], st, ch, [], none⟩
        else if anyInstalling then
          let (st, ch) := updateStatus policy.status installPlanInstallingCond relatedInstallPlans
          ⟨[], st, ch, [], none⟩
        else if ipsRequiringApproval.isEmpty then
          let (st, ch) := updateStatus policy.status installPlansNoApprovals relatedInstallPlans
          ⟨[], st, ch, [], none⟩
        else
          let allUpgradeVersions := allUpgradeVersionsOf ipsRequiringApproval
          if policy.remediationAction.IsInform then
            let (st, ch) := updateStatus policy.status
              (installPlanUpgradeCond allUpgradeVersions []) relatedInstallPlans
            ⟨[], st, ch, [], none⟩
          else
            let scanned := approvableScan policy.versions ipsRequiringApproval
            let approvedVersion := scanned.1
            let approvableInstallPlans := scanned.2
            if approvableInstallPlans.length ≠ 1 then
              let (st, ch) := updateStatus policy.status
                (installPlanUpgradeCond allUpgradeVersions
                  (approvableInstallPlans.map InstallPlan.name)) relatedInstallPlans
              ⟨[], st, ch, [], none⟩
            else
              let target := (approvableInstallPlans.headD
                ⟨"", [], none, none, false⟩).name
              match updateErr with
              | some e =>
                ⟨[], policy.status, false, [Action.update "InstallPlan" target],
                  some ("error updating approved InstallPlan: " ++ e)⟩
              | none =>
                let (st, ch) := updateStatus policy.status
                  (installPlanApprovedCond approvedVersion) relatedInstallPlans
                ⟨[], st, ch, [Action.update "InstallPlan" target], none⟩

/-- An observed ClusterServiceVersion, restricted to the fields the
controller reads: `healthy` abstracts the most recent status condition that
`buildCSVCond` inspects, and `reason` its reason. -/
structure CSV where
  name : String
  ns : String
  healthy : Bool
  reason : String
  deriving DecidableEq, Repr

/-- Modelled from the spec: `buildCSVCond` reports Compliance exactly when
the ClusterServiceVersion's most recent condition is healthy. -/
def buildCSVCond (csv : CSV) : Condition :=
  ⟨"ClusterServiceVersionCompliant",
    if csv.healthy then CondStatus.isTrue else CondStatus.isFalse,
    csv.reason, "ClusterServiceVersion - " ++ csv.reason⟩

/-- Modelled from the spec: `noExistingCSVObj` related-object entry. -/
def noExistingCSVObj : RelatedObject :=
  ⟨"ClusterServiceVersion", "-", "", "UnknownCompliancy", "No relevant CSV found"⟩

/-- Modelled from the spec: `missingCSVObj` related-object entry. -/
def missingCSVObj (name ns : String) : RelatedObject :=
  ⟨"ClusterServiceVersion", name, ns, "NonCompliant", "Resource not found but should exist"⟩

/-- Modelled from the spec: `existingCSVObj` related-object entry. -/
def existingCSVObj (csv : CSV) : RelatedObject :=
  ⟨"ClusterServiceVersion", csv.name, csv.ns,
    if csv.healthy then "Compliant" else "NonCompliant", csv.reason⟩

/-- Embeds `handleCSV` (controller lines 901-943).  Oracle: the result of
getting the installed CSV from the watcher.  Returns the CSV passed to the
deployment stage together with the common handler outputs. -/
def handleCSV (policy : Policy) (sub : Option Subscription)
    (getResult : Except String (Option CSV)) : Option CSV × HandlerOut :=
  match sub with
  | none =>
    let (st, ch) := updateStatus policy.status noCSVCond [noExistingCSVObj]
    (none, ⟨[], st, ch, [], none⟩)
  | some sub =>
    if sub.status.installedCSV = "" then
      let (st, ch) := updateStatus policy.status noCSVCond [noExistingCSVObj]
      (none, ⟨[], st, ch, [], none⟩)
    else
      match getResult with
      | Except.error e => (none, ⟨[], policy.status, false, [], some e⟩)
      | Except.ok none =>
        let (st, ch) := updateStatus policy.status
          (missingWantedCond "ClusterServiceVersion")
          [missingCSVObj sub.name sub.ns]
        (none, ⟨[], st, ch, [], none⟩)
      | Except.ok (some csv) =>
        let (st, ch) := updateStatus policy.status (buildCSVCond csv) [existingCSVObj csv]
        (some csv, ⟨[], st, ch, [], none⟩)

/-- Modelled from the spec: `catalogSourceFindCond` reports the health of
the catalog source. -/
def catalogSourceFindCond (isUnhealthy isMissing : Bool) (name : String) : Condition :=
  ⟨"CatalogSourcesUnhealthy",
    if isUnhealthy || isMissing then CondStatus.isTrue else CondStatus.isFalse,
    if isMissing then "CatalogSourcesNotFound"
    else if isUnhealthy then "CatalogSourcesFoundUnhealthy"
    else "CatalogSourcesFound",
    "CatalogSource " ++ name ++ " health check"⟩

/-- Modelled from the spec: `catalogSourceUnknownCond` is the Unknown-state
condition when the catalog source has no connection state yet. -/
def catalogSourceUnknownCond : Condition :=
  ⟨"CatalogSourcesUnhealthy", CondStatus.isUnknown, "LastObservedUnknown",
    "the health of the CatalogSource could not be determined"⟩

/-- Modelled from the spec: `catalogSourceObj` related-object entry. -/
def catalogSourceObj (name ns : String) (isUnhealthy isMissing : Bool) : RelatedObject :=
  ⟨"CatalogSource", name, ns,
    if isUnhealthy || isMissing then "NonCompliant" else "Compliant",
    if isMissing then "Resource not found but should exist" else "Resource found"⟩

/-- Modelled from the spec: `catalogSrcUnknownObj` related-object entry. -/
def catalogSrcUnknownObj (name ns : String) : RelatedObject :=
  ⟨"CatalogSource", name, ns, "UnknownCompliancy", "Resource found but status is not available"⟩

/-- The observed CatalogSource, restricted to the fields the controller
reads: `lastObservedState` is `none` when the status carries no GRPC
connection state. -/
structure CatalogSource where
  lastObservedState : Option String
  deriving DecidableEq, Repr

/-- Embeds `handleCatalogSource` (controller lines 1001-1051).  Oracle: the
result of getting the CatalogSource from the watcher. -/
def handleCatalogSource (policy : Policy) (subscription : Option Subscription)
    (getResult : Except String (Option CatalogSource)) : HandlerOut :=
  match subscription with
  | none =>
    let (st, ch) := updateStatus policy.status (invalidCausingUnknownCond "CatalogSource") []
    ⟨[], st, ch, [], none⟩
  | some subscription =>
    let catalogName := subscription.spec.catalogSource
    let catalogNS := subscription.spec.catalogSourceNamespace
    match getResult with
    | Except.error e =>
      ⟨[], policy.status, false, [], some ("error getting CatalogSource: " ++ e)⟩
    | Except.ok found =>
      let isMissing := found.isNone
      match found with
      | some catalogSrc =>
        match catalogSrc.lastObservedState with
        | none =>
          let (st, ch) := updateStatus policy.status catalogSourceUnknownCond
            [catalogSrcUnknownObj catalogName catalogNS]
          ⟨[], st, ch, [], none⟩
        | some state =>
          let isUnhealthy := decide ¬ state = "READY"
          let (st, ch) := updateStatus policy.status
            (catalogSourceFindCond isUnhealthy isMissing catalogName)
            [catalogSourceObj catalogName catalogNS isUnhealthy isMissing]
          ⟨[], st, ch, [], none⟩
      | none =>
        let (st, ch) := updateStatus policy.status
          (catalogSourceFindCond isMissing isMissing catalogName)
          [catalogSourceObj catalogName catalogNS isMissing isMissing]
        ⟨[], st, ch, [], none⟩

/-!
## Pipeline control flow (`handleResources` and `Reconcile`)

The outcome each stage would produce if invoked is given as an oracle; the
embedding mirrors the control flow of `handleResources` (lines 198-271):
appending early conditions, or-ing the `changed` flags, and returning as
soon as a stage reports an error.  The list of stages actually executed is
recorded so that continuation properties are statable.
-/

/-- The stages of the pipeline, in dependency order. -/
inductive Stage
  | build
  | opGroup
  | subscription
  | installPlan
  | csv
  | deployment
  | catalogSource
  deriving DecidableEq, Repr

/-- The outcome one stage would produce if invoked: its early conditions,
its `changed` flag, and its error. -/
structure StageOutcome where
  conds : List Condition
  changed : Bool
  err : Option String
  deriving Repr

/-- The per-stage oracle for one reconciliation run. -/
structure StageSim where
  buildOut : StageOutcome
  ogOut : StageOutcome
  subOut : StageOutcome
  ipOut : StageOutcome
  csvOut : StageOutcome
  depOut : StageOutcome
  catOut : StageOutcome
  deriving Repr

/-- The result of `handleResources`: early compliance conditions, the
`condChanged` flag, the error, and the trace of executed stages. -/
structure PipelineResult where
  conds : List Condition
  changed : Bool
  err : Option String
  executed : List Stage
  deriving Repr

/-- Embeds `handleResources` (controller lines 198-271): runs the stages in
dependency order, accumulating early conditions and the changed flag, and
returns as soon as a stage reports an error. -/
def handleResources (env : StageSim) : PipelineResult :=
  let step := fun (acc : PipelineResult) (s : Stage) (out : StageOutcome) =>
    (⟨acc.conds ++ out.conds, acc.changed || out.changed, out.err,
      acc.executed ++ [s]⟩ : PipelineResult)
  let acc : PipelineResult := ⟨[], false, none, []⟩
  let acc := step acc Stage.build env.buildOut
  match acc.err with
  | some _ => acc
  | none =>
  let acc := step acc Stage.opGroup env.ogOut
  match acc.err with
  | some _ => acc
  | none =>
  let acc := step acc Stage.subscription env.subOut
  match acc.err with
  | some _ => acc
  | none =>
  let acc := step acc Stage.installPlan env.ipOut
  match acc.err with
  | some _ => acc
  | none =>
  let acc := step acc Stage.csv env.csvOut
  match acc.err with
  | some _ => acc
  | none =>
  let acc := step acc Stage.deployment env.depOut
  match acc.err with
  | some _ => acc
  | none =>
  let acc := step acc Stage.catalogSource env.catOut
  match acc.err with
  | some _ => acc
  | none => acc

/-- Embeds the error handling of `Reconcile` (controller lines 163-186):
the error list starts with the `handleResources` error when there is one;
when the status changed, the final compliance condition is appended to the
conditions to emit and a failing status update contributes its error; then
each emitted compliance event may contribute an emission error.  The
returned list is what `utilerrors.NewAggregate` receives. -/
def reconcileErrs (env : StageSim) (finalCond : Condition)
    (statusUpdateErr : Option String) (emit : Condition → Option String) : List String :=
  let hr := handleResources env
  let errs : List String := match hr.err with
    | some e => [e]
    | none => []
  let (conditionsToEmit, errs) :=
    if hr.changed then
      (hr.conds ++ [finalCond],
        match statusUpdateErr with
        | some e => errs ++ [e]
        | none => errs)
    else
      (hr.conds, errs)
  errs ++ conditionsToEmit.filterMap emit

/-!
## Aliasing of the cached object (`DeepCopy` before merge)

The watch cache hands the handler a pointer to the cached object; the
handler deep-copies it (`merged := foundSub.DeepCopy()`, controller lines
517 and 625) and all later in-place mutations (the `handleKeys` merge and
the server's reply to an Update call) go through the copy's pointer.  The
pointer structure is modelled with a small heap of objects addressed by
natural numbers.
-/

/-- A heap of unstructured objects addressed by allocation order. -/
def Heap : Type := List UObj

/-- Reads the object at a reference (a dangling reference reads as the
empty object). -/
def heapRead (h : Heap) (r : Nat) : UObj := h.getD r []

/-- Overwrites the object at a reference. -/
def heapWrite (h : Heap) (r : Nat) (v : UObj) : Heap := h.set r v

/-- Allocates a fresh cell holding `v` and returns its reference. -/
def heapAlloc (h : Heap) (v : UObj) : Heap × Nat := (List.append h [v], List.length h)

/-- Embeds the aliasing structure of the comparison-and-enforcement path of
`handleOpGroup` and `handleSubscription`: the found object lives in the
cache cell `rCache`; the handler allocates a fresh cell holding a deep copy
(`DeepCopy`, controller lines 517 and 625), the `handleKeys` merge mutates
the copy in place (modelled by the arbitrary in-place transformation
`hkMut`), and the Update call writes the server's reply into the copy in
place (`serverMut`).  Returns the final heap and the copy's reference. -/
def cacheMergeAndUpdate (h : Heap) (rCache : Nat) (hkMut serverMut : UObj → UObj) :
    Heap × Nat :=
  let copy := heapRead h rCache
  let (h1, rMerged) := heapAlloc h copy
  let h2 := heapWrite h1 rMerged (hkMut (heapRead h1 rMerged))
  let h3 := heapWrite h2 rMerged (serverMut (heapRead h2 rMerged))
  (h3, rMerged)

/-!
## Desired-state builder (`buildSubscription`)

The raw JSON handling (`json.Unmarshal`, the strict decode with
`DisallowUnknownFields`) is modelled by giving `buildSubscription` the
already-decoded shape of `spec.subscription`: either a malformed document,
or the optional "namespace" entry together with the result of the strict
decode into `SubscriptionSpec`.
-/

/-- The decoded shape of the raw `spec.subscription` fragment. -/
inductive RawSubscription
  | malformed (e : String)
  | parsed (ns : Option String) (strict : Except String SubscriptionSpec)
  deriving Repr

/-- True when the character is a lowercase letter or a digit. -/
def isLowerAlnum (c : Char) : Bool :=
  ('a' ≤ c && c ≤ 'z') || ('0' ≤ c && c ≤ '9')

/-- Embeds `validation.IsDNS1123Label`: at most 63 characters, non-empty,
only lowercase alphanumerics and dashes, starting and ending with an
alphanumeric. -/
def isDNS1123Label (s : String) : Bool :=
  s.length ≤ 63 && decide ¬ s = "" &&
    s.toList.all (fun c => isLowerAlnum c || c = '-') &&
    isLowerAlnum (s.toList.headD '-') && isLowerAlnum (s.toList.getLastD '-')

/-- Embeds `buildSubscription` (controller lines 318-379): resolve the
namespace (falling back to the configured default), validate it, strictly
decode the spec, validate `installPlanApproval`, and finally force the
approval mode to Manual when the policy is enforced and the version
allow-list is non-empty. -/
def buildSubscription (policy : Policy) (raw : RawSubscription) (defaultNS : String) :
    Except String Subscription :=
  match raw with
  | RawSubscription.malformed e =>
    Except.error ("the policy spec.subscription is invalid: " ++ e)
  | RawSubscription.parsed nsOpt strict =>
    let nsRes : Except String String :=
      match nsOpt with
      | some n => Except.ok n
      | none =>
        if defaultNS = "" then
          Except.error "namespace is required in spec.subscription"
        else
          Except.ok defaultNS
    match nsRes with
    | Except.error e => Except.error e
    | Except.ok ns =>
      if ¬ isDNS1123Label ns then
        Except.error ("the namespace '" ++ ns ++
          "' used for the subscription is not a valid namespace identifier")
      else
        match strict with
        | Except.error e =>
          Except.error ("the policy spec.subscription is invalid: " ++ e)
        | Except.ok spec =>
          if ¬ (spec.installPlanApproval = "Manual" || spec.installPlanApproval = "Automatic") then
            Except.error ("the policy spec.subscription.installPlanApproval ('" ++
              spec.installPlanApproval ++ "') is invalid: must be 'Automatic' or 'Manual'")
          else
            let spec :=
              if policy.remediationAction.IsEnforce && decide ¬ policy.versions.isEmpty then
                { spec with installPlanApproval := "Manual" }
              else
                spec
            Except.ok ⟨spec.package, ns, spec, ⟨"", none, []⟩⟩

/-!
## Helper lemmas
-/

theorem condOfType_updateStatus (st : PolicyStatus) (c : Condition)
    (objs : List RelatedObject) :
    condOfType (updateStatus st c objs).1 c.ctype = some c := by
  simp [condOfType, updateStatus, setCondition, List.find?_cons]

theorem mem_replaceRelated (old objs : List RelatedObject) (o : RelatedObject)
    (hmem : o ∈ objs) : o ∈ replaceRelated old objs := by
  unfold replaceRelated
  have hne : objs.isEmpty = false := by
    cases objs with
    | nil => cases hmem
    | cons a l => rfl
  simp only [hne, Bool.false_eq_true, if_false, List.mem_append]
  exact Or.inr hmem

/-- The single CSV a plan targets (meaningful exactly for approvable
plans, whose CSV-name list has one element). -/
def planCSV (ip : InstallPlan) : String := (ip.csvNames.getD []).headD ""

/-- Boolean form of the approvability test the scan performs on each plan. -/
def isApprovableB (versions : List String) (ip : InstallPlan) : Bool :=
  match ip.csvNames with
  | none => false
  | some l => l.length = 1 && (versions.isEmpty || versions.contains (l.headD ""))

theorem isApprovableB_iff (versions : List String) (ip : InstallPlan) :
    isApprovableB versions ip = true ↔ isApprovable versions ip := by
  unfold isApprovableB isApprovable
  cases h : ip.csvNames with
  | none => simp
  | some l =>
    simp [List.isEmpty_iff, List.contains, Bool.and_eq_true, Bool.or_eq_true]

theorem approvableStep_pos (versions : List String) (vacc : String × List InstallPlan)
    (ip : InstallPlan) (hap : isApprovableB versions ip = true) :
    approvableStep versions vacc ip = (planCSV ip, vacc.2 ++ [ip]) := by
  unfold approvableStep
  unfold isApprovableB at hap
  cases h : ip.csvNames with
  | none => rw [h] at hap; cases hap
  | some l =>
    rw [h] at hap
    rw [Bool.and_eq_true] at hap
    have h1 : l.length = 1 := by simpa using hap.1
    simp only [h1, ne_eq, not_true_eq_false, if_false, hap.2, if_true, planCSV, h,
      Option.getD_some]

theorem approvableStep_neg (versions : List String) (vacc : String × List InstallPlan)
    (ip : InstallPlan) (hap : isApprovableB versions ip = false) :
    approvableStep versions vacc ip = vacc := by
  unfold approvableStep
  unfold isApprovableB at hap
  cases h : ip.csvNames with
  | none => simp
  | some l =>
    rw [h] at hap
    rw [Bool.and_eq_false_iff] at hap
    rcases hap with h1 | h2
    · have : l.length ≠ 1 := by simpa using h1
      simp [this]
    · by_cases h1 : l.length = 1
      · simp only [h1, ne_eq, not_true_eq_false, if_false, h2, Bool.false_eq_true]
      · simp [h1]

theorem foldl_approvableStep (versions : List String) (ips : List InstallPlan)
    (v : String) (acc : List InstallPlan) :
    ips.foldl (approvableStep versions) (v, acc) =
      ((ips.filter (isApprovableB versions)).foldl (fun _ ip => planCSV ip) v,
        acc ++ ips.filter (isApprovableB versions)) := by
  induction ips generalizing v acc with
  | nil => simp
  | cons ip rest ih =>
    rw [List.foldl_cons, List.filter_cons]
    by_cases hap : isApprovableB versions ip = true
    · rw [if_pos hap, approvableStep_pos versions (v, acc) ip hap, ih, List.foldl_cons]
      simp
    · rw [if_neg (by simpa using hap),
        approvableStep_neg versions (v, acc) ip (by simpa using hap), ih]

theorem approvableScan_eq (versions : List String) (ips : List InstallPlan) :
    approvableScan versions ips =
      ((ips.filter (isApprovableB versions)).foldl (fun _ ip => planCSV ip) "",
        ips.filter (isApprovableB versions)) := by
  unfold approvableScan
  rw [foldl_approvableStep]
  simp

theorem approvableScan_mem (versions : List String) (ips : List InstallPlan)
    (ip : InstallPlan) :
    ip ∈ (approvableScan versions ips).2 ↔ ip ∈ ips ∧ isApprovable versions ip := by
  rw [approvableScan_eq]
  simp [List.mem_filter, isApprovableB_iff]

theorem approvableScan_single (versions : List String) (ips : List InstallPlan)
    (ip : InstallPlan) (h : (approvableScan versions ips).2 = [ip]) :
    (approvableScan versions ips).1 = planCSV ip := by
  rw [approvableScan_eq] at h ⊢
  simp only at h
  rw [h]
  rfl

/-- The match may end at `post` exactly when `post` is the end of the
message or starts with a boundary character (whitespace, comma, colon). -/
def boundaryOk (post : List Char) : Prop :=
  post = [] ∨ ∃ c cs, post = c :: cs ∧ isBoundaryChar c = true

theorem litBoundaryAt_iff (pat s : List Char) :
    litBoundaryAt pat s = true ↔ ∃ post, s = pat ++ post ∧ boundaryOk post := by
  induction pat generalizing s with
  | nil =>
    cases s with
    | nil =>
      simp only [litBoundaryAt, List.nil_append, boundaryOk]
      constructor
      · intro _; exact ⟨[], rfl, Or.inl rfl⟩
      · intro _; trivial
    | cons c cs =>
      simp only [litBoundaryAt, List.nil_append, boundaryOk]
      constructor
      · intro h; exact ⟨c :: cs, rfl, Or.inr ⟨c, cs, rfl, h⟩⟩
      · rintro ⟨post, rfl, hok⟩
        rcases hok with h | ⟨c0, cs0, heq, hb⟩
        · cases h
        · rw [List.cons.injEq] at heq
          rw [heq.1]
          exact hb
  | cons p ps ih =>
    cases s with
    | nil =>
      simp [litBoundaryAt]
    | cons c cs =>
      simp only [litBoundaryAt, Bool.and_eq_true, decide_eq_true_eq, ih,
        List.cons_append, List.cons.injEq]
      constructor
      · rintro ⟨rfl, post, rfl, hok⟩
        exact ⟨post, ⟨rfl, rfl⟩, hok⟩
      · rintro ⟨post, ⟨rfl, rfl⟩, hok⟩
        exact ⟨rfl, post, rfl, hok⟩

theorem litBoundarySearch_iff (pat s : List Char) :
    litBoundarySearch pat s = true ↔
      ∃ pre post, s = pre ++ (pat ++ post) ∧ boundaryOk post := by
  induction s with
  | nil =>
    rw [litBoundarySearch, litBoundaryAt_iff]
    constructor
    · rintro ⟨post, h, hok⟩
      exact ⟨[], post, by simpa using h, hok⟩
    · rintro ⟨pre, post, h, hok⟩
      rcases List.append_eq_nil.mp h.symm with ⟨rfl, h2⟩
      exact ⟨post, by simpa using h2.symm, hok⟩
  | cons c cs ih =>
    rw [litBoundarySearch, Bool.or_eq_true, litBoundaryAt_iff, ih]
    constructor
    · rintro (⟨post, h, hok⟩ | ⟨pre, post, h, hok⟩)
      · exact ⟨[], post, by simpa using h, hok⟩
      · exact ⟨c :: pre, post, by simp [h], hok⟩
    · rintro ⟨pre, post, h, hok⟩
      cases pre with
      | nil => exact Or.inl ⟨post, by simpa using h, hok⟩
      | cons p pre2 =>
        rw [List.cons_append, List.cons.injEq] at h
        exact Or.inr ⟨pre2, post, h.2, hok⟩

/-!
## Claim theorems
-/

/-- C3: For every policy whose remediation mode is enforce and whose version
allow-list is non-empty, the subscription built by the desired-state builder
has install-plan approval mode Manual, regardless of the installPlanApproval
value the user specified. -/
theorem buildSubscription_enforce_versions_forces_manual
    (policy : Policy) (raw : RawSubscription) (defaultNS : String) (s : Subscription)
    (henf : policy.remediationAction = RemediationAction.enforce)
    (hv : ¬ policy.versions = [])
    (hok : buildSubscription policy raw defaultNS = Except.ok s) :
    s.spec.installPlanApproval = "Manual" := by
  have hne : policy.versions.isEmpty = false := by
    simpa using hv
  unfold buildSubscription at hok
  cases raw with
  | malformed e => cases hok
  | parsed nsOpt strict =>
    simp only [henf, RemediationAction.IsEnforce, hne, Bool.false_eq_true, not_false_iff,
      Bool.and_self] at hok
    split at hok
    · cases hok
    · split at hok
      · cases hok
      · split at hok
        · cases hok
        · split at hok
          · cases hok
          · split at hok
            · cases hok
              rfl
            · simp at *

/-- The concrete policy used to witness C3: enforce mode with a non-empty
version allow-list. -/
def polC3 : Policy :=
  ⟨RemediationAction.enforce, "musthave", ["quay-operator.v3.8.13"], false, ⟨[], []⟩⟩

/-- The concrete decoded subscription fragment used to witness C3: the user
specified Automatic approval. -/
def rawC3 : RawSubscription :=
  RawSubscription.parsed (some "operator-ns")
    (Except.ok ⟨"project-quay", "stable", "", "redhat-operators", "olm", "Automatic"⟩)

theorem buildSubscription_enforce_versions_forces_manual_witness :
    polC3.remediationAction = RemediationAction.enforce ∧
      ¬ polC3.versions = [] ∧
      (∃ s, buildSubscription polC3 rawC3 "" = Except.ok s ∧
        s.spec.installPlanApproval = "Manual") := by
  refine ⟨rfl, by decide, ⟨⟨"project-quay", "operator-ns",
    ⟨"project-quay", "stable", "", "redhat-operators", "olm", "Manual"⟩, ⟨"", none, []⟩⟩,
    rfl, ?_⟩⟩
  exact buildSubscription_enforce_versions_forces_manual polC3 rawC3 "" _
    rfl (by decide) rfl

/-- C5: Whenever the key comparison reports a needed update but the dry-run
write succeeds and the dry-run result, after stripping the volatile fields,
is identical to the stripped original object, `mergeObjects` overrides its
result to updateNeeded = false. -/
theorem mergeObjects_dryrun_identity_overrides_updateNeeded
    (existing : UObj) (hk : HandleKeysOut) (result : UObj)
    (hmsg : hk.errMsg = "") (hneed : hk.updateNeeded = true)
    (heq : removeFieldsForComparison result = removeFieldsForComparison existing) :
    mergeObjects existing hk (DryRunOutcome.ok result) =
      ⟨false, false, none⟩ := by
  unfold mergeObjects
  simp [hmsg, hneed, heq]

/-- The concrete existing object used to witness C5. -/
def exC5 : UObj := [("a", "1"), ("status", "old")]

/-- The concrete `handleKeys` outcome used to witness C5: a theoretical
diff was detected. -/
def hkC5 : HandleKeysOut := ⟨"", true, [("a", "1"), ("status", "old")]⟩

/-- The concrete dry-run result used to witness C5: it differs from the
original only in the volatile status field. -/
def resC5 : UObj := [("a", "1"), ("status", "new")]

theorem mergeObjects_dryrun_identity_witness :
    hkC5.errMsg = "" ∧ hkC5.updateNeeded = true ∧
      removeFieldsForComparison resC5 = removeFieldsForComparison exC5 ∧
      mergeObjects exC5 hkC5 (DryRunOutcome.ok resC5) = ⟨false, false, none⟩ :=
  ⟨rfl, rfl, by decide,
    mergeObjects_dryrun_identity_overrides_updateNeeded exC5 hkC5 resC5 rfl rfl (by decide)⟩

/-- C4: Whenever the dry-run update is rejected by the server as forbidden,
`mergeObjects` returns updateNeeded = true and updateIsForbidden = true with
no error; and in enforce mode the subscription and operator-group
reconcilers then report the distinct mismatched-unfixable condition,
perform no cluster mutation, and raise no error. -/
theorem mergeObjects_forbidden_handlers_unfixable :
    (∀ (existing : UObj) (hk : HandleKeysOut),
      hk.errMsg = "" → hk.updateNeeded = true →
      mergeObjects existing hk DryRunOutcome.forbidden = ⟨true, true, none⟩)
    ∧ (∀ (policy : Policy) (desired foundSub mergedSub : Subscription)
        (inclCheck : Except String Bool) (createErr updateErr : Option String),
      policy.remediationAction = RemediationAction.enforce →
      (handleSubscription policy (some desired) (Except.ok (some foundSub))
          ⟨true, true, none⟩ none mergedSub inclCheck createErr updateErr).2.actions = []
      ∧ (handleSubscription policy (some desired) (Except.ok (some foundSub))
          ⟨true, true, none⟩ none mergedSub inclCheck createErr updateErr).2.err = none
      ∧ condOfType (handleSubscription policy (some desired) (Except.ok (some foundSub))
          ⟨true, true, none⟩ none mergedSub inclCheck createErr updateErr).2.status
          "SubscriptionCompliant" = some (mismatchCondUnfixable "Subscription"))
    ∧ (∀ (policy : Policy) (desired opGroup : OperatorGroup) (createErr updateErr : Option String),
      policy.remediationAction = RemediationAction.enforce →
      ¬ desired.ns = "" →
      opGroup.name = desired.name →
      policy.opGroupSpecified = true →
      (handleOpGroup policy (some desired) (Except.ok [opGroup])
          ⟨true, true, none⟩ createErr updateErr).actions = []
      ∧ (handleOpGroup policy (some desired) (Except.ok [opGroup])
          ⟨true, true, none⟩ createErr updateErr).err = none
      ∧ condOfType (handleOpGroup policy (some desired) (Except.ok [opGroup])
          ⟨true, true, none⟩ createErr updateErr).status
          "OperatorGroupCompliant" = some (mismatchCondUnfixable "OperatorGroup")) := by
  refine ⟨?_, ?_, ?_⟩
  · intro existing hk hmsg hneed
    unfold mergeObjects
    simp [hmsg, hneed]
  · intro policy desired foundSub mergedSub inclCheck createErr updateErr hra
    unfold handleSubscription
    simp only [hra, RemediationAction.IsEnforce, Bool.not_true, Bool.false_eq_true,
      not_false_iff, Bool.true_and, if_true, if_false]
    refine ⟨rfl, rfl, ?_⟩
    exact condOfType_updateStatus policy.status (mismatchCondUnfixable "Subscription") _
  · intro policy desired opGroup createErr updateErr hra hns hname hspec
    unfold handleOpGroup
    simp only [hns, if_false, hra, hspec, RemediationAction.IsEnforce, hname,
      Bool.true_or, not_true_eq_false, if_false, Bool.true_and, if_true,
      Bool.not_true, Bool.false_eq_true, not_false_iff]
    refine ⟨rfl, rfl, ?_⟩
    exact condOfType_updateStatus policy.status (mismatchCondUnfixable "OperatorGroup") _

/-- The concrete enforce-mode policy used to witness C4. -/
def polC4 : Policy := ⟨RemediationAction.enforce, "musthave", [], true, ⟨[], []⟩⟩

/-- The concrete subscription used to witness C4. -/
def subC4 : Subscription :=
  ⟨"project-quay", "operator-ns",
    ⟨"project-quay", "stable", "", "redhat-operators", "olm", "Automatic"⟩, ⟨"", none, []⟩⟩

/-- The concrete operator group used to witness C4. -/
def ogC4 : OperatorGroup := ⟨"og1", "", "operator-ns", []⟩

theorem mergeObjects_forbidden_handlers_unfixable_witness :
    mergeObjects [("a", "1")] ⟨"", true, [("a", "2")]⟩ DryRunOutcome.forbidden =
      ⟨true, true, none⟩
    ∧ (handleSubscription polC4 (some subC4) (Except.ok (some subC4))
        ⟨true, true, none⟩ none subC4 (Except.ok false) none none).2.actions = []
    ∧ condOfType (handleOpGroup polC4 (some ogC4) (Except.ok [ogC4])
        ⟨true, true, none⟩ none none).status "OperatorGroupCompliant" =
      some (mismatchCondUnfixable "OperatorGroup") :=
  ⟨mergeObjects_forbidden_handlers_unfixable.1 [("a", "1")] ⟨"", true, [("a", "2")]⟩ rfl rfl,
    (mergeObjects_forbidden_handlers_unfixable.2.1 polC4 subC4 subC4 subC4
      (Except.ok false) none none rfl).1,
    (mergeObjects_forbidden_handlers_unfixable.2.2 polC4 ogC4 ogC4 none none
      rfl (by decide) rfl rfl).2.2⟩

/-- C7: Whenever two or more operator groups are found in the target
namespace, the operator-group reconciler reports the dedicated
too-many-operator-groups NonCompliant condition with every found group
listed as a related object, and performs no create, update, or delete of
any operator group, regardless of remediation mode. -/
theorem handleOpGroup_too_many_groups
    (policy : Policy) (desired g1 g2 : OperatorGroup) (rest : List OperatorGroup)
    (mergeRes : MergeOutcome) (createErr updateErr : Option String)
    (hns : ¬ desired.ns = "") :
    (handleOpGroup policy (some desired) (Except.ok (g1 :: g2 :: rest))
        mergeRes createErr updateErr).actions = []
    ∧ (handleOpGroup policy (some desired) (Except.ok (g1 :: g2 :: rest))
        mergeRes createErr updateErr).err = none
    ∧ condOfType (handleOpGroup policy (some desired) (Except.ok (g1 :: g2 :: rest))
        mergeRes createErr updateErr).status "OperatorGroupCompliant" =
      some opGroupTooManyCond
    ∧ opGroupTooManyCond.status = CondStatus.isFalse
    ∧ ∀ g ∈ g1 :: g2 :: rest,
        (⟨"OperatorGroup", g.name, g.ns, "NonCompliant",
          "There is more than one OperatorGroup in this namespace"⟩ : RelatedObject) ∈
          (handleOpGroup policy (some desired) (Except.ok (g1 :: g2 :: rest))
            mergeRes createErr updateErr).status.relatedObjects := by
  unfold handleOpGroup
  simp only [hns, if_false]
  refine ⟨by trivial, by trivial, condOfType_updateStatus policy.status opGroupTooManyCond _,
    rfl, ?_⟩
  intro g hg
  simp only [updateStatus]
  apply mem_replaceRelated
  unfold opGroupTooManyObjs
  exact List.mem_map_of_mem _ hg

/-- The concrete inform-mode policy used to witness C7. -/
def polC7 : Policy := ⟨RemediationAction.inform, "musthave", [], true, ⟨[], []⟩⟩

/-- The concrete desired operator group used to witness C7. -/
def ogC7 : OperatorGroup := ⟨"wanted-og", "", "operator-ns", []⟩

/-- The two operator groups found in the namespace in the C7 witness. -/
def foundC7 : List OperatorGroup :=
  [⟨"og-a", "", "operator-ns", []⟩, ⟨"og-b", "", "operator-ns", []⟩]

theorem handleOpGroup_too_many_groups_witness :
    ¬ ogC7.ns = ""
    ∧ (handleOpGroup polC7 (some ogC7)
        (Except.ok foundC7) ⟨false, false, none⟩ none none).actions = []
    ∧ condOfType (handleOpGroup polC7 (some ogC7)
        (Except.ok foundC7) ⟨false, false, none⟩ none none).status
        "OperatorGroupCompliant" = some opGroupTooManyCond :=
  ⟨by decide,
    (handleOpGroup_too_many_groups polC7 ogC7 ⟨"og-a", "", "operator-ns", []⟩
      ⟨"og-b", "", "operator-ns", []⟩ [] ⟨false, false, none⟩ none none (by decide)).1,
    (handleOpGroup_too_many_groups polC7 ogC7 ⟨"og-a", "", "operator-ns", []⟩
      ⟨"og-b", "", "operator-ns", []⟩ [] ⟨false, false, none⟩ none none (by decide)).2.2.1⟩

/-- C8: For every dependency dimension, whenever the desired object that
dimension depends on failed to build (is nil), that dimension's reconciler
sets an Unknown/Invalid condition and performs no cluster mutation; the
condition is never Compliant in that case.  (The operator-group dimension
also treats an empty target namespace as invalid.) -/
theorem nil_desired_reports_unknown_no_mutation :
    (∀ (policy : Policy) (listResult : Except String (List OperatorGroup))
        (mergeRes : MergeOutcome) (createErr updateErr : Option String),
      (handleOpGroup policy none listResult mergeRes createErr updateErr).actions = []
      ∧ (handleOpGroup policy none listResult mergeRes createErr updateErr).err = none
      ∧ condOfType (handleOpGroup policy none listResult mergeRes createErr
          updateErr).status "OperatorGroupCompliant" =
        some (invalidCausingUnknownCond "OperatorGroup")
      ∧ (invalidCausingUnknownCond "OperatorGroup").status = CondStatus.isUnknown)
    ∧ (∀ (policy : Policy) (name gen : String) (targets : List String)
        (listResult : Except String (List OperatorGroup))
        (mergeRes : MergeOutcome) (createErr updateErr : Option String),
      (handleOpGroup policy (some ⟨name, gen, "", targets⟩) listResult mergeRes
          createErr updateErr).actions = []
      ∧ condOfType (handleOpGroup policy (some ⟨name, gen, "", targets⟩) listResult
          mergeRes createErr updateErr).status "OperatorGroupCompliant" =
        some (invalidCausingUnknownCond "OperatorGroup"))
    ∧ (∀ (policy : Policy) (getResult : Except String (Option Subscription))
        (mergeRes : MergeOutcome) (convErr : Option String) (mergedSub : Subscription)
        (inclCheck : Except String Bool) (createErr updateErr : Option String),
      (handleSubscription policy none getResult mergeRes convErr mergedSub inclCheck
          createErr updateErr).2.actions = []
      ∧ (handleSubscription policy none getResult mergeRes convErr mergedSub inclCheck
          createErr updateErr).2.err = none
      ∧ condOfType (handleSubscription policy none getResult mergeRes convErr mergedSub
          inclCheck createErr updateErr).2.status "SubscriptionCompliant" =
        some (invalidCausingUnknownCond "Subscription")
      ∧ (invalidCausingUnknownCond "Subscription").status = CondStatus.isUnknown)
    ∧ (∀ (policy : Policy) (listResult : Except String (List InstallPlan))
        (updateErr : Option String),
      (handleInstallPlan policy none listResult updateErr).actions = []
      ∧ (handleInstallPlan policy none listResult updateErr).err = none
      ∧ condOfType (handleInstallPlan policy none listResult updateErr).status
          "InstallPlanCompliant" = some (invalidCausingUnknownCond "InstallPlan")
      ∧ (invalidCausingUnknownCond "InstallPlan").status = CondStatus.isUnknown)
    ∧ (∀ (policy : Policy) (getResult : Except String (Option CSV)),
      (handleCSV policy none getResult).2.actions = []
      ∧ (handleCSV policy none getResult).2.err = none
      ∧ condOfType (handleCSV policy none getResult).2.status
          "ClusterServiceVersionCompliant" = some noCSVCond
      ∧ noCSVCond.status = CondStatus.isUnknown)
    ∧ (∀ (policy : Policy) (getResult : Except String (Option CatalogSource)),
      (handleCatalogSource policy none getResult).actions = []
      ∧ (handleCatalogSource policy none getResult).err = none
      ∧ condOfType (handleCatalogSource policy none getResult).status
          "CatalogSourceCompliant" = some (invalidCausingUnknownCond "CatalogSource")
      ∧ (invalidCausingUnknownCond "CatalogSource").status = CondStatus.isUnknown) := by
  refine ⟨?_, ?_, ?_, ?_, ?_, ?_⟩
  · intro policy listResult mergeRes createErr updateErr
    exact ⟨rfl, rfl, condOfType_updateStatus policy.status _ [], rfl⟩
  · intro policy name gen targets listResult mergeRes createErr updateErr
    unfold handleOpGroup
    simp only [if_pos rfl]
    exact ⟨rfl, condOfType_updateStatus policy.status _ []⟩
  · intro policy getResult mergeRes convErr mergedSub inclCheck createErr updateErr
    exact ⟨rfl, rfl, condOfType_updateStatus policy.status _ [], rfl⟩
  · intro policy listResult updateErr
    exact ⟨rfl, rfl, condOfType_updateStatus policy.status _ [], rfl⟩
  · intro policy getResult
    exact ⟨rfl, rfl, condOfType_updateStatus policy.status _ _, rfl⟩
  · intro policy getResult
    exact ⟨rfl, rfl, condOfType_updateStatus policy.status _ [], rfl⟩

/-- C9: The operator-group and subscription reconcilers deep-copy the object
obtained from the watch cache before handing it to the merge engine, so the
cached observed object is never mutated by the comparison or by a subsequent
enforcement update: whatever in-place transformations the merge helper and
the Update calls apply to the copy, the cache cell is unchanged. -/
theorem cacheMergeAndUpdate_preserves_cache
    (h : Heap) (rCache : Nat) (hkMut serverMut : UObj → UObj)
    (hlt : rCache < List.length h) :
    heapRead (cacheMergeAndUpdate h rCache hkMut serverMut).1 rCache = heapRead h rCache := by
  unfold cacheMergeAndUpdate heapAlloc heapWrite heapRead
  have hne : List.length h ≠ rCache := Nat.ne_of_gt hlt
  simp only [List.getD_eq_getElem?_getD, List.getElem?_set_ne hne, List.append_eq,
    List.getElem?_append, hlt, if_pos]

/-- The concrete heap used to witness C9: one cached object. -/
def heapC9 : Heap := [[("spec", "cached"), ("status", "live")]]

theorem cacheMergeAndUpdate_preserves_cache_witness :
    0 < List.length heapC9
    ∧ heapRead (cacheMergeAndUpdate heapC9 0 (fun _ => [("spec", "merged")])
        (fun _ => [("spec", "merged"), ("status", "server")])).1 0 = heapRead heapC9 0 :=
  ⟨by decide,
    cacheMergeAndUpdate_preserves_cache heapC9 0 (fun _ => [("spec", "merged")])
      (fun _ => [("spec", "merged"), ("status", "server")]) (by decide)⟩

/-- The concrete stage outcomes refuting C1: the OperatorGroup stage fails
hard while the Subscription stage, had it run, would have succeeded and
produced a status change (it can produce meaningful status). -/
def envC1 : StageSim :=
  ⟨⟨[], false, none⟩,
    ⟨[], false, some "error listing OperatorGroups: api timeout"⟩,
    ⟨[matchesCond "Subscription"], true, none⟩,
    ⟨[], false, none⟩, ⟨[], false, none⟩, ⟨[], false, none⟩, ⟨[], false, none⟩⟩

/-- Counterexample to C1 as stated: in a run where the OperatorGroup stage
returns a hard error, the subscription stage is not executed even though it
could produce meaningful status, and the aggregate error of the run is just
the first stage error, not an aggregate of every stage's error. -/
theorem handleResources_counterexample_C1 :
    (handleResources envC1).err = some "error listing OperatorGroups: api timeout"
    ∧ (handleResources envC1).executed = [Stage.build, Stage.opGroup]
    ∧ (handleResources envC1).executed.contains Stage.subscription = false
    ∧ reconcileErrs envC1 (calculateComplianceCondition ⟨[], []⟩) none (fun _ => none) =
      ["error listing OperatorGroups: api timeout"] :=
  ⟨rfl, rfl, rfl, rfl⟩

/-- C1 amended: when a pipeline stage returns a hard error, `handleResources`
returns immediately with that single error and the later stages do not
execute; the run's aggregate combines that one pipeline error with any
status-update error and any event-emission errors (errors of the other
reconcile phases), not with the errors later stages would have produced. -/
theorem handleResources_short_circuits_on_stage_error :
    (∀ (env : StageSim) (e : String),
      env.buildOut.err = none → env.ogOut.err = some e →
      (handleResources env).executed = [Stage.build, Stage.opGroup]
      ∧ (handleResources env).err = some e)
    ∧ (∀ (env : StageSim) (e : String),
      env.buildOut.err = none → env.ogOut.err = none → env.subOut.err = some e →
      (handleResources env).executed = [Stage.build, Stage.opGroup, Stage.subscription]
      ∧ (handleResources env).err = some e)
    ∧ (∀ (env : StageSim) (e1 e2 : String) (finalCond : Condition),
      env.buildOut.err = none → env.ogOut.err = some e1 → env.subOut.err = some e2 →
      reconcileErrs env finalCond none (fun _ => none) = [e1])
    ∧ (∀ (env : StageSim) (finalCond : Condition) (sErr : Option String)
        (emit : Condition → Option String) (e : String),
      env.buildOut.err = none → env.ogOut.err = some e →
      (handleResources env).changed = true →
      reconcileErrs env finalCond sErr emit =
        [e] ++ sErr.toList ++
          (((handleResources env).conds ++ [finalCond]).filterMap emit)) := by
  refine ⟨?_, ?_, ?_, ?_⟩
  · intro env e hb hog
    constructor <;> simp [handleResources, hb, hog]
  · intro env e hb hog hsub
    constructor <;> simp [handleResources, hb, hog, hsub]
  · intro env e1 e2 finalCond hb hog _
    cases hch : (handleResources env).changed <;>
      simp [reconcileErrs, handleResources, hb, hog] at hch ⊢ <;>
      simp [hch]
  · intro env finalCond sErr emit e hb hog hch
    simp only [reconcileErrs, hch, if_true]
    simp [handleResources, hb, hog] at hch ⊢
    cases sErr <;> simp

theorem handleResources_short_circuits_witness :
    envC1.buildOut.err = none
    ∧ envC1.ogOut.err = some "error listing OperatorGroups: api timeout"
    ∧ (handleResources envC1).executed = [Stage.build, Stage.opGroup]
    ∧ (handleResources envC1).err = some "error listing OperatorGroups: api timeout" :=
  ⟨rfl, rfl,
    (handleResources_short_circuits_on_stage_error.1 envC1
      "error listing OperatorGroups: api timeout" rfl rfl).1,
    (handleResources_short_circuits_on_stage_error.1 envC1
      "error listing OperatorGroups: api timeout" rfl rfl).2⟩

/-- C2: In enforce mode, for every set of install plans pending approval: a
plan is approvable only if its target-version list has exactly one element
and that element is in the policy's version allow-list (or the allow-list
is empty); if exactly one plan is approvable its approval flag is patched
and the condition reports Compliant naming the approved version; if zero or
more than one plan is approvable, no plan is patched and the condition
reports NonCompliant. -/
theorem handleInstallPlan_enforce_approval
    (policy : Policy) (sub : Subscription) (found : List InstallPlan)
    (hra : policy.remediationAction = RemediationAction.enforce)
    (howned : (ownedPlansOf sub.name found).isEmpty = false)
    (hfail : currentPlanFailedB sub (ownedPlansOf sub.name found) = false)
    (hinst : anyInstallingB (ownedPlansOf sub.name found) = false)
    (hreq : (plansRequiringApproval (ownedPlansOf sub.name found)).isEmpty = false) :
    (∀ ip : InstallPlan,
      ip ∈ (approvableScan policy.versions
          (plansRequiringApproval (ownedPlansOf sub.name found))).2 ↔
        ip ∈ plansRequiringApproval (ownedPlansOf sub.name found) ∧
          isApprovable policy.versions ip)
    ∧ (∀ ip : InstallPlan,
      (approvableScan policy.versions
          (plansRequiringApproval (ownedPlansOf sub.name found))).2 = [ip] →
      (handleInstallPlan policy (some sub) (Except.ok found) none).actions =
        [Action.update "InstallPlan" ip.name]
      ∧ (handleInstallPlan policy (some sub) (Except.ok found) none).err = none
      ∧ condOfType (handleInstallPlan policy (some sub) (Except.ok found) none).status
          "InstallPlanCompliant" = some (installPlanApprovedCond (planCSV ip))
      ∧ (installPlanApprovedCond (planCSV ip)).status = CondStatus.isTrue)
    ∧ (¬ (approvableScan policy.versions
          (plansRequiringApproval (ownedPlansOf sub.name found))).2.length = 1 →
      (handleInstallPlan policy (some sub) (Except.ok found) none).actions = []
      ∧ (handleInstallPlan policy (some sub) (Except.ok found) none).err = none
      ∧ condOfType (handleInstallPlan policy (some sub) (Except.ok found) none).status
          "InstallPlanCompliant" =
        some (installPlanUpgradeCond
          (allUpgradeVersionsOf (plansRequiringApproval (ownedPlansOf sub.name found)))
          ((approvableScan policy.versions
            (plansRequiringApproval (ownedPlansOf sub.name found))).2.map InstallPlan.name))
      ∧ (installPlanUpgradeCond
          (allUpgradeVersionsOf (plansRequiringApproval (ownedPlansOf sub.name found)))
          ((approvableScan policy.versions
            (plansRequiringApproval (ownedPlansOf sub.name found))).2.map
              InstallPlan.name)).status = CondStatus.isFalse) := by
  refine ⟨?_, ?_, ?_⟩
  · intro ip
    exact approvableScan_mem policy.versions _ ip
  · intro ip hsingle
    have hver := approvableScan_single policy.versions
      (plansRequiringApproval (ownedPlansOf sub.name found)) ip hsingle
    unfold handleInstallPlan
    simp only [howned, hfail, hinst, hreq, hra, RemediationAction.IsInform,
      Bool.false_eq_true, if_false, hsingle, hver, List.length_cons, List.length_nil,
      ne_eq, not_true_eq_false, List.headD_cons]
    exact ⟨by trivial, by trivial, condOfType_updateStatus policy.status _ _, rfl⟩
  · intro hne
    unfold handleInstallPlan
    simp only [howned, hfail, hinst, hreq, hra, RemediationAction.IsInform,
      Bool.false_eq_true, if_false, ne_eq, hne, not_false_iff, if_true]
    exact ⟨by trivial, by trivial, condOfType_updateStatus policy.status _ _, rfl⟩

/-- The concrete enforce-mode policy used to witness C2, allowing one
version. -/
def polC2 : Policy :=
  ⟨RemediationAction.enforce, "musthave", ["strimzi-cluster-operator.v0.36.0"], false, ⟨[], []⟩⟩

/-- The concrete subscription used to witness C2. -/
def subC2 : Subscription :=
  ⟨"strimzi-kafka-operator", "operator-ns",
    ⟨"strimzi-kafka-operator", "stable", "", "community-operators", "olm", "Manual"⟩,
    ⟨"", none, []⟩⟩

/-- An approvable plan for the C2 witness: one target version, allowed. -/
def ipA : InstallPlan :=
  ⟨"install-aaaaa", [⟨"strimzi-kafka-operator", "Subscription", "operators.coreos.com/v1alpha1"⟩],
    some "RequiresApproval", some ["strimzi-cluster-operator.v0.36.0"], false⟩

/-- A non-approvable plan for the C2 witness: its target version is not in
the allow-list. -/
def ipB : InstallPlan :=
  ⟨"install-bbbbb", [⟨"strimzi-kafka-operator", "Subscription", "operators.coreos.com/v1alpha1"⟩],
    some "RequiresApproval", some ["strimzi-cluster-operator.v0.36.1"], false⟩

/-- The install plans found in the namespace in the C2 witness. -/
def foundC2 : List InstallPlan := [ipA, ipB]

theorem handleInstallPlan_enforce_approval_witness :
    polC2.remediationAction = RemediationAction.enforce
    ∧ (ownedPlansOf subC2.name foundC2).isEmpty = false
    ∧ (approvableScan polC2.versions
        (plansRequiringApproval (ownedPlansOf subC2.name foundC2))).2 = [ipA]
    ∧ (handleInstallPlan polC2 (some subC2) (Except.ok foundC2) none).actions =
        [Action.update "InstallPlan" ipA.name]
    ∧ condOfType (handleInstallPlan polC2 (some subC2) (Except.ok foundC2) none).status
        "InstallPlanCompliant" = some (installPlanApprovedCond (planCSV ipA)) :=
  ⟨rfl, by decide, by decide,
    ((handleInstallPlan_enforce_approval polC2 subC2 foundC2 rfl (by decide) (by decide)
      (by decide) (by decide)).2.1 ipA (by decide)).1,
    ((handleInstallPlan_enforce_approval polC2 subC2 foundC2 rfl (by decide) (by decide)
      (by decide) (by decide)).2.1 ipA (by decide)).2.2.1⟩

/-- A subscription governing package "gatekeeper-operator". -/
def subGO : Subscription :=
  ⟨"gatekeeper-operator", "gatekeeper-ns",
    ⟨"gatekeeper-operator", "stable", "", "community-operators", "olm", "Automatic"⟩,
    ⟨"", none, []⟩⟩

/-- A subscription governing package "gatekeeper-operator-product". -/
def subGOP : Subscription :=
  ⟨"gatekeeper-operator-product", "gatekeeper-ns",
    ⟨"gatekeeper-operator-product", "stable", "", "redhat-operators", "olm", "Automatic"⟩,
    ⟨"", none, []⟩⟩

/-- A namespace-wide resolution-failure message naming only
"gatekeeper-operator". -/
def msgGO : String :=
  "constraints not satisfiable: no operators found in package gatekeeper-operator " ++
    "in the catalog referenced by subscription gatekeeper-operator"

/-- A namespace-wide resolution-failure message naming only
"gatekeeper-operator-product". -/
def msgGOP : String :=
  "constraints not satisfiable: no operators found in package gatekeeper-operator-product " ++
    "in the catalog referenced by subscription gatekeeper-operator-product"

/-- C6: The correlation check matches the message against the subscription's
name or package name only at word boundaries (each mention must be followed
by the end of the message, whitespace, a comma, or a colon), so a message
naming package "gatekeeper-operator" does not match a policy governing
"gatekeeper-operator-product" and vice versa; and when the message does not
reference this subscription or package, the subscription condition reports
matching rather than failing. -/
theorem messageIncludesSubscription_word_boundary :
    (∀ (subscription : Subscription) (message : String),
      messageIncludesSubscription subscription message = true ↔
        ∃ p ∈ subPatterns subscription, ∃ pre post,
          message.toList = pre ++ (p.toList ++ post) ∧ boundaryOk post)
    ∧ messageIncludesSubscription subGOP msgGO = false
    ∧ messageIncludesSubscription subGO msgGOP = false
    ∧ (∀ (policy : Policy) (desired foundSub mergedSub : Subscription)
        (message : String) (createErr updateErr : Option String),
      messageIncludesSubscription mergedSub message = false →
      condOfType (handleSubscription policy (some desired) (Except.ok (some foundSub))
          ⟨false, false, none⟩ none mergedSub
          (Except.ok (messageIncludesSubscription mergedSub message))
          createErr updateErr).2.status "SubscriptionCompliant" =
        some (matchesCond "Subscription")
      ∧ (matchesCond "Subscription").status = CondStatus.isTrue) := by
  refine ⟨?_, by decide, by decide, ?_⟩
  · intro subscription message
    simp only [messageIncludesSubscription, List.any_eq_true, litBoundarySearch_iff]
  · intro policy desired foundSub mergedSub message createErr updateErr hfalse
    unfold handleSubscription
    simp only [hfalse, Bool.and_false, Bool.false_eq_true, if_false]
    exact ⟨condOfType_updateStatus policy.status (matchesCond "Subscription") _, rfl⟩

/-- The concrete policy used to witness C6. -/
def polC6 : Policy := ⟨RemediationAction.inform, "musthave", [], false, ⟨[], []⟩⟩

theorem messageIncludesSubscription_word_boundary_witness :
    messageIncludesSubscription subGOP msgGO = false
    ∧ condOfType (handleSubscription polC6 (some subGOP) (Except.ok (some subGOP))
        ⟨false, false, none⟩ none subGOP
        (Except.ok (messageIncludesSubscription subGOP msgGO)) none none).2.status
        "SubscriptionCompliant" = some (matchesCond "Subscription") :=
  ⟨by decide,
    (messageIncludesSubscription_word_boundary.2.2.2 polC6 subGOP subGOP subGOP msgGO
      none none (by decide)).1⟩

/-- C10: Whenever the correlation check for a namespace-wide
resolution-failure message itself fails with an error, the subscription
reconciler assumes the message applies to this subscription and reports the
failure condition (status False) rather than treating the subscription as
compliant. -/
theorem handleSubscription_check_error_assumes_failure
    (policy : Policy) (desired foundSub mergedSub : Subscription) (e : String)
    (createErr updateErr : Option String)
    (hres : (mergedSub.status.getCondition "ResolutionFailed").status = CondStatus.isTrue) :
    condOfType (handleSubscription policy (some desired) (Except.ok (some foundSub))
        ⟨false, false, none⟩ none mergedSub (Except.error e) createErr updateErr).2.status
        "SubscriptionCompliant" =
      some ⟨subConditionType, CondStatus.isFalse,
        (mergedSub.status.getCondition "ResolutionFailed").reason,
        (mergedSub.status.getCondition "ResolutionFailed").message⟩
    ∧ (handleSubscription policy (some desired) (Except.ok (some foundSub))
        ⟨false, false, none⟩ none mergedSub (Except.error e) createErr
        updateErr).2.actions = [] := by
  unfold handleSubscription
  simp only [hres, Bool.and_true, decide_eq_true_eq, if_pos rfl]
  refine ⟨?_, by trivial⟩
  exact condOfType_updateStatus policy.status
    ⟨subConditionType, CondStatus.isFalse,
      (mergedSub.status.getCondition "ResolutionFailed").reason,
      (mergedSub.status.getCondition "ResolutionFailed").message⟩ _

/-- The merged subscription used to witness C10: OLM reported a
namespace-wide resolution failure. -/
def mergedSubC10 : Subscription :=
  ⟨"project-quay", "operator-ns",
    ⟨"project-quay", "stable", "", "redhat-operators", "olm", "Automatic"⟩,
    ⟨"", none, [⟨"ResolutionFailed", CondStatus.isTrue, "ConstraintsNotSatisfiable",
      "constraints not satisfiable: no operators found in package other-package"⟩]⟩⟩

/-- The concrete policy used to witness C10. -/
def polC10 : Policy := ⟨RemediationAction.inform, "musthave", [], false, ⟨[], []⟩⟩

theorem handleSubscription_check_error_witness :
    (mergedSubC10.status.getCondition "ResolutionFailed").status = CondStatus.isTrue
    ∧ condOfType (handleSubscription polC10 (some mergedSubC10) (Except.ok (some mergedSubC10))
        ⟨false, false, none⟩ none mergedSubC10 (Except.error "regex compile failure")
        none none).2.status "SubscriptionCompliant" =
      some ⟨subConditionType, CondStatus.isFalse,
        (mergedSubC10.status.getCondition "ResolutionFailed").reason,
        (mergedSubC10.status.getCondition "ResolutionFailed").message⟩ :=
  ⟨by decide,
    (handleSubscription_check_error_assumes_failure polC10 mergedSubC10 mergedSubC10
      mergedSubC10 "regex compile failure" none none (by decide)).1⟩

end OperatorPolicy
